import Mathlib

/-!
Verification of the session-controller component of the apicurito editor
(`src/app/editor/editor.component.ts`) against its specification.

The component is embedded as a discrete-event state machine:
  * `EState` holds the component's mutable fields (`generating`,
    `generateError`, `showSuccessToast`, `showErrorToast`, `toastTimeoutId`,
    `persistenceTimeout`) together with the surrounding collaborator state
    modelled from the spec's collaborator contracts (recovery store,
    download transport log, generation transport log, host message log,
    close-event counter).
  * JavaScript timers (`setTimeout` / `clearTimeout`) are modelled with
    explicit positive integer handles in a `pending` list; `advanceTo`
    moves time forward, firing every due timer in (deadline, id) order —
    timer callbacks in this component never schedule or cancel timers, so
    firing order is the JS task-queue order.
  * Each public method of the component becomes a state transformer; an
    asynchronous method together with the resolution of its transport
    promise is one atomic operation (the claims only concern the states
    before and after completion).
-/

namespace ApicuritoEditor

/-- The session encoding (`ApiFileEncoding`): JSON or YAML. -/
inductive Enc
| json
| yaml
deriving DecidableEq, Repr

/-- The value of `apiEditor.getValue().spec`: either a structured object
(opaque, identified by a `Nat`) or already-serialized text.  Mirrors the
source's dynamic `typeof spec === "object"` test. -/
inductive SpecVal
| structured (v : Nat)
| text (s : String)
deriving DecidableEq, Repr

/-- External collaborator (JSON.stringify with 4-space indent, from the
platform library): an opaque injective serializer; no claim depends on the
concrete text, only on which serializer is applied. -/
def jsonOf (v : Nat) : String := "JSON" ++ toString v

/-- External collaborator (js-yaml safeDump with indent 4, lineWidth 110,
noRefs): an opaque injective serializer. -/
def yamlOf (v : Nat) : String := "YAML" ++ toString v

/-- The two kinds of timer callbacks the component schedules:
the recovery persistence callback (editor.component.ts lines 98-101) and
the success-toast auto-dismiss callback (lines 178-180).  The error-toast
auto-dismiss is commented out in the source, so no such action exists. -/
inductive TAct
| persist
| dismissSuccess
deriving DecidableEq, Repr

/-- A scheduled JS timer: its handle, its absolute due time, its callback. -/
structure Timer where
  id : Nat
  deadline : Nat
  act : TAct
deriving DecidableEq, Repr

/-- The component state plus collaborator state.

Component fields mirror `EditorComponent`; `toastTimeoutId` and
`persistenceTimeout` hold timer handles (`none` models JS `null`; handles
start at 1 so JS truthiness of a handle coincides with `isSome`).

Collaborator fields, modelled from the spec's collaborator contracts
(spec section 6): `store` is the recovery store's single snapshot slot
(`storage.store` / `storage.clear`); `writeLog` records every recovery
persistence write with its time; `downloads` records every
`downloader.downloadToFS(content, ct, filename)` call; `generateCalls`
records every `downloader.generateAndDownload(config, content, filename)`
call; `hostMessages` records every `vscodeExtension.sendMessage` call;
`closedEmits` counts `onClose.emit()` events. -/
structure EState where
  now : Nat
  nextId : Nat
  pending : List Timer
  generating : Bool
  generateError : Option String
  showSuccessToast : Bool
  showErrorToast : Bool
  toastTimeoutId : Option Nat
  persistenceTimeout : Option Nat
  doc : SpecVal
  encoding : Enc
  store : Option SpecVal
  writeLog : List (Nat × SpecVal)
  closedEmits : Nat
  hostMessages : List (String × String)
  downloads : List (String × String × String)
  generateCalls : List (Nat × String × String)
deriving DecidableEq, Repr

/-- JS `clearTimeout(handle)`: removes the pending timer with that handle;
a no-op on `null` or on a handle that already fired. -/
def clearT (s : EState) : Option Nat → EState
  | none => s
  | some i => { s with pending := s.pending.filter (fun tm => tm.id != i) }

/-- JS `setTimeout(callback, delay)`: appends a fresh timer due at
`now + delay`; the fresh handle is the current `nextId`. -/
def schedule (s : EState) (delay : Nat) (a : TAct) : EState :=
  { s with pending := s.pending ++ [Timer.mk s.nextId (s.now + delay) a],
           nextId := s.nextId + 1 }

/-- Executing one timer callback (the timer has already been removed from
`pending`).  `persist`: `storage.store(apiEditor.getValue())` then
`persistenceTimeout = null` (lines 99-100).  `dismissSuccess`:
`showSuccessToast = false` (line 179). -/
def fire (s : EState) (tm : Timer) : EState :=
  match tm.act with
  | TAct.persist =>
      { s with store := some s.doc,
               writeLog := s.writeLog ++ [(tm.deadline, s.doc)],
               persistenceTimeout := none }
  | TAct.dismissSuccess =>
      { s with showSuccessToast := false }

/-- Firing order of simultaneously due timers: earlier deadline first,
ties broken by handle (JS scheduling order; handles increase over time). -/
def timerLE (a b : Timer) : Bool :=
  a.deadline < b.deadline || (a.deadline == b.deadline && a.id ≤ b.id)

/-- Insertion into a `timerLE`-sorted list. -/
def insT (a : Timer) : List Timer → List Timer
  | [] => [a]
  | b :: l => if timerLE a b then a :: b :: l else b :: insT a l

/-- Insertion sort by `timerLE`. -/
def sortT : List Timer → List Timer
  | [] => []
  | a :: l => insT a (sortT l)

/-- Advance the clock to `t` (clocks never run backwards: the new time is
`max now t`), firing every due timer in order.  The callbacks in this
component never schedule or cancel timers, so all due timers can be
removed first and their callbacks folded in firing order. -/
def advanceTo (s : EState) (t : Nat) : EState :=
  (sortT (s.pending.filter (fun tm => decide (tm.deadline ≤ max s.now t)))).foldl fire
    { s with pending := s.pending.filter (fun tm => decide (max s.now t < tm.deadline)),
             now := max s.now t }

/-- `documentChanged()` (lines 92-102): cancel a pending persistence timer
if the handle is truthy (handles are ≥ 1, so truthy iff non-null), then
schedule a fresh persistence timer 5 time units out and remember its
handle. -/
def documentChangedOp (s : EState) : EState :=
  let s1 := match s.persistenceTimeout with
    | some i => { (clearT s (some i)) with persistenceTimeout := none }
    | none => s
  { (schedule s1 5 TAct.persist) with persistenceTimeout := some s1.nextId }

/-- The serialized content produced by `save(format)` (lines 125-140):
a structured document is serialized as JSON when `format === "json"`,
otherwise as YAML; an already-text document is passed through unchanged. -/
def saveContent (d : SpecVal) (format : String) : String :=
  match d with
  | SpecVal.structured v => if format == "json" then jsonOf v else yamlOf v
  | SpecVal.text str => str

/-- The filename produced by `save(format)` (lines 124-139): the base name
`"openapi-spec"` gets its extension appended only inside the
`typeof spec === "object"` branch, so an already-text document keeps the
bare base name. -/
def saveFilename (d : SpecVal) (format : String) : String :=
  match d with
  | SpecVal.structured _ =>
      if format == "json" then "openapi-spec" ++ ".json" else "openapi-spec" ++ ".yaml"
  | SpecVal.text _ => "openapi-spec"

/-- The synchronous part of `save(format)` (lines 120-141): reset
`generateError`, serialize, and invoke
`downloader.downloadToFS(content, "application/json", filename)`. -/
def saveCall (s : EState) (format : String) : EState :=
  { s with generateError := none,
           downloads := s.downloads ++
             [(saveContent s.doc format, "application/json", saveFilename s.doc format)] }

/-- `save(format)` whose transport promise resolves: the `.then` runs
`storage.clear()` (line 142). -/
def saveOkOp (s : EState) (format : String) : EState :=
  { (saveCall s format) with store := none }

/-- `save(format)` whose transport promise rejects: the `.then` callback
never runs; the rejection propagates to the caller. -/
def saveFailOp (s : EState) (format : String) : EState :=
  saveCall s format

/-- `close()` (lines 147-152): reset `generateError`, `storage.clear()`,
emit the no-payload close event. -/
def closeOp (s : EState) : EState :=
  { s with generateError := none, store := none, closedEmits := s.closedEmits + 1 }

/-- `saveAndClose()` (lines 154-159) when `save()` succeeds:
`save()` (with its default `"json"` format) then `close()`. -/
def saveAndCloseOkOp (s : EState) : EState :=
  closeOp (saveOkOp s "json")

/-- `saveAndClose()` when `save()`'s transport rejects: the `.then`
callback is skipped, so `close()` never runs. -/
def saveAndCloseFailOp (s : EState) : EState :=
  saveFailOp s "json"

/-- The content `generate` sends (lines 168-172): a structured document is
always serialized as JSON; an already-text document passes through. -/
def jserialize (d : SpecVal) : String :=
  match d with
  | SpecVal.structured v => jsonOf v
  | SpecVal.text str => str

/-- The synchronous part of `generate(gconfig)` (lines 161-175): clear the
error message and both toast flags, serialize as JSON, set
`generating = true`, and invoke
`downloader.generateAndDownload(gconfig, content, "camel-project.zip")`. -/
def generateEntry (s : EState) (cfg : Nat) : EState :=
  { s with generateError := none,
           showErrorToast := false,
           showSuccessToast := false,
           generating := true,
           generateCalls := s.generateCalls ++ [(cfg, jserialize s.doc, "camel-project.zip")] }

/-- `generate` whose transport promise resolves (lines 175-180):
`generating = false`, show the success toast, schedule its auto-dismiss
5 time units out and remember the handle. -/
def generateOkOp (s : EState) (cfg : Nat) : EState :=
  let s1 := { (generateEntry s cfg) with generating := false, showSuccessToast := true }
  { (schedule s1 5 TAct.dismissSuccess) with toastTimeoutId := some s1.nextId }

/-- `generate` whose transport promise rejects (lines 181-190):
`generating = false`, store `error.message`, show the error toast; the
auto-dismiss for the error toast is commented out in the source, so no
timer is scheduled. -/
def generateFailOp (s : EState) (cfg : Nat) (m : String) : EState :=
  { (generateEntry s cfg) with generating := false,
                               generateError := some m,
                               showErrorToast := true }

/-- Serialization per the session encoding, as in `saveExt` (lines 107-115). -/
def encSerialize (e : Enc) (v : Nat) : String :=
  match e with
  | Enc.json => jsonOf v
  | Enc.yaml => yamlOf v

/-- `saveExt()` (lines 104-118): only when the document is structured does
it serialize per the session encoding and send a `"save-req"` host
message; `sendMessage` sits inside the `typeof spec === "object"` branch,
so an already-text document sends nothing.  No transport call, no timer,
no storage access. -/
def saveExtOp (s : EState) : EState :=
  match s.doc with
  | SpecVal.structured v =>
      { s with hostMessages := s.hostMessages ++ [("save-req", encSerialize s.encoding v)] }
  | SpecVal.text _ => s

/-- `closeSuccessToast()` (lines 193-196): clear the flag, then
`clearTimeout(toastTimeoutId)` (the handle field itself is not nulled). -/
def closeSuccessToastOp (s : EState) : EState :=
  clearT { s with showSuccessToast := false } s.toastTimeoutId

/-- `closeErrorToast()` (lines 198-201): clear the flag, then
`clearTimeout(toastTimeoutId)` (the handle field itself is not nulled). -/
def closeErrorToastOp (s : EState) : EState :=
  clearT { s with showErrorToast := false } s.toastTimeoutId

/-- External events driving the session: user actions and, for the
asynchronous commands, the resolution of their transport promise. -/
inductive Ev
| docChanged
| saveOk (format : String)
| saveFail (format : String)
| saveExternal
| closeEditor
| saveAndCloseOk
| saveAndCloseFail
| generateOk (cfg : Nat)
| generateFail (cfg : Nat) (m : String)
| dismissSuccessToast
| dismissErrorToast
deriving DecidableEq, Repr

/-- Dispatch one event to its operation. -/
def opOf : Ev → EState → EState
  | Ev.docChanged, s => documentChangedOp s
  | Ev.saveOk f, s => saveOkOp s f
  | Ev.saveFail f, s => saveFailOp s f
  | Ev.saveExternal, s => saveExtOp s
  | Ev.closeEditor, s => closeOp s
  | Ev.saveAndCloseOk, s => saveAndCloseOkOp s
  | Ev.saveAndCloseFail, s => saveAndCloseFailOp s
  | Ev.generateOk c, s => generateOkOp s c
  | Ev.generateFail c m, s => generateFailOp s c m
  | Ev.dismissSuccessToast, s => closeSuccessToastOp s
  | Ev.dismissErrorToast, s => closeErrorToastOp s

/-- Process one timestamped event: advance the clock (firing due timers),
then run the operation. -/
def step (s : EState) (p : Nat × Ev) : EState :=
  opOf p.2 (advanceTo s p.1)

/-- Run a timestamped event trace. -/
def run (s : EState) : List (Nat × Ev) → EState
  | [] => s
  | p :: l => run (step s p) l

/-- A fresh session: timer handles start at 1 (so every handle is truthy),
no timers pending, no toast, empty collaborator logs. -/
def initState (d : SpecVal) (e : Enc) : EState :=
  { now := 0, nextId := 1, pending := [], generating := false, generateError := none,
    showSuccessToast := false, showErrorToast := false, toastTimeoutId := none,
    persistenceTimeout := none, doc := d, encoding := e, store := none, writeLog := [],
    closedEmits := 0, hostMessages := [], downloads := [], generateCalls := [] }

/-- Number of pending recovery persistence timers. -/
def persistCount (l : List Timer) : Nat :=
  (l.filter (fun tm => tm.act == TAct.persist)).length

/-- A trace consisting only of `documentChanged` events at the given times. -/
def dcTrace (ts : List Nat) : List (Nat × Ev) :=
  ts.map (fun t => (t, Ev.docChanged))

/-- `chainB tprev ts`: the times in `ts` are nondecreasing starting from
`tprev` and each is less than 5 units after its predecessor. -/
def chainB : Nat → List Nat → Bool
  | _, [] => true
  | tprev, t :: l => (decide (tprev ≤ t) && decide (t < tprev + 5)) && chainB t l

/-- The state after the first `documentChanged` of a fresh session at time
`t0`: the first persistence timer (handle 1) is due at `t0 + 5`. -/
def firstEditState (d : SpecVal) (e : Enc) (t0 : Nat) : EState :=
  { now := t0, nextId := 2, pending := [Timer.mk 1 (t0 + 5) TAct.persist],
    generating := false, generateError := none, showSuccessToast := false,
    showErrorToast := false, toastTimeoutId := none, persistenceTimeout := some 1,
    doc := d, encoding := e, store := none, writeLog := [], closedEmits := 0,
    hostMessages := [], downloads := [], generateCalls := [] }

lemma run_nil (s : EState) : run s [] = s := rfl

lemma run_cons (s : EState) (p : Nat × Ev) (l : List (Nat × Ev)) :
    run s (p :: l) = run (step s p) l := rfl

lemma fire_frame (s : EState) (tm : Timer) :
    (fire s tm).now = s.now ∧ (fire s tm).nextId = s.nextId ∧
    (fire s tm).pending = s.pending ∧ (fire s tm).doc = s.doc ∧
    (fire s tm).generateError = s.generateError ∧
    (fire s tm).showErrorToast = s.showErrorToast ∧
    (fire s tm).generating = s.generating ∧
    (fire s tm).toastTimeoutId = s.toastTimeoutId ∧
    (fire s tm).closedEmits = s.closedEmits ∧
    (fire s tm).encoding = s.encoding := by
  cases h : tm.act <;> simp [fire, h]

lemma foldFire_frame (l : List Timer) : ∀ s : EState,
    (l.foldl fire s).now = s.now ∧ (l.foldl fire s).nextId = s.nextId ∧
    (l.foldl fire s).pending = s.pending ∧ (l.foldl fire s).doc = s.doc ∧
    (l.foldl fire s).generateError = s.generateError ∧
    (l.foldl fire s).showErrorToast = s.showErrorToast ∧
    (l.foldl fire s).generating = s.generating ∧
    (l.foldl fire s).toastTimeoutId = s.toastTimeoutId ∧
    (l.foldl fire s).closedEmits = s.closedEmits ∧
    (l.foldl fire s).encoding = s.encoding := by
  induction l with
  | nil => intro s; exact ⟨rfl, rfl, rfl, rfl, rfl, rfl, rfl, rfl, rfl, rfl⟩
  | cons a l ih =>
      intro s
      obtain ⟨g1, g2, g3, g4, g5, g6, g7, g8, g9, g10⟩ := ih (fire s a)
      obtain ⟨f1, f2, f3, f4, f5, f6, f7, f8, f9, f10⟩ := fire_frame s a
      simp only [List.foldl_cons]
      exact ⟨g1.trans f1, g2.trans f2, g3.trans f3, g4.trans f4, g5.trans f5,
             g6.trans f6, g7.trans f7, g8.trans f8, g9.trans f9, g10.trans f10⟩

lemma advanceTo_frame (s : EState) (t : Nat) :
    (advanceTo s t).now = max s.now t ∧
    (advanceTo s t).nextId = s.nextId ∧
    (advanceTo s t).pending =
      s.pending.filter (fun tm => decide (max s.now t < tm.deadline)) ∧
    (advanceTo s t).doc = s.doc ∧
    (advanceTo s t).generateError = s.generateError ∧
    (advanceTo s t).showErrorToast = s.showErrorToast ∧
    (advanceTo s t).generating = s.generating ∧
    (advanceTo s t).toastTimeoutId = s.toastTimeoutId ∧
    (advanceTo s t).closedEmits = s.closedEmits ∧
    (advanceTo s t).encoding = s.encoding := by
  obtain ⟨h1, h2, h3, h4, h5, h6, h7, h8, h9, h10⟩ :=
    foldFire_frame
      (sortT (s.pending.filter (fun tm => decide (tm.deadline ≤ max s.now t))))
      { s with pending := s.pending.filter (fun tm => decide (max s.now t < tm.deadline)),
               now := max s.now t }
  exact ⟨h1, h2, h3, h4, h5, h6, h7, h8, h9, h10⟩

lemma advanceTo_not_due (s : EState) (t : Nat)
    (h : ∀ tm ∈ s.pending, max s.now t < tm.deadline) :
    advanceTo s t = { s with now := max s.now t } := by
  unfold advanceTo
  have h1 : s.pending.filter (fun tm => decide (tm.deadline ≤ max s.now t)) = [] := by
    rw [List.filter_eq_nil_iff]
    intro a ha
    simpa using h a ha
  have h2 : s.pending.filter (fun tm => decide (max s.now t < tm.deadline)) = s.pending := by
    rw [List.filter_eq_self]
    intro a ha
    simpa using h a ha
  rw [h1, h2]
  rfl

lemma advanceTo_single_persist (s : EState) (t i dl : Nat)
    (hp : s.pending = [Timer.mk i dl TAct.persist]) (hd : dl ≤ max s.now t) :
    advanceTo s t = { s with pending := [], now := max s.now t,
                             store := some s.doc,
                             writeLog := s.writeLog ++ [(dl, s.doc)],
                             persistenceTimeout := none } := by
  unfold advanceTo
  rw [hp]
  generalize max s.now t = m at hd ⊢
  simp [List.filter_cons, hd, Nat.not_lt.mpr hd, sortT, insT, fire]

lemma documentChangedOp_empty (s : EState)
    (hp : s.pending = []) (hpt : s.persistenceTimeout = none) :
    documentChangedOp s =
      { s with pending := [Timer.mk s.nextId (s.now + 5) TAct.persist],
               nextId := s.nextId + 1, persistenceTimeout := some s.nextId } := by
  unfold documentChangedOp
  rw [hpt]
  simp [schedule, hp]

lemma documentChangedOp_single (s : EState) (i dl : Nat) (a : TAct)
    (hp : s.pending = [Timer.mk i dl a]) (hpt : s.persistenceTimeout = some i) :
    documentChangedOp s =
      { s with pending := [Timer.mk s.nextId (s.now + 5) TAct.persist],
               nextId := s.nextId + 1, persistenceTimeout := some s.nextId } := by
  unfold documentChangedOp
  rw [hpt]
  simp [clearT, schedule, hp]

lemma persistCount_advanceTo (s : EState) (t : Nat) :
    persistCount (advanceTo s t).pending ≤ persistCount s.pending := by
  have hp := (advanceTo_frame s t).2.2.1
  rw [hp]
  unfold persistCount
  exact ((List.filter_sublist s.pending).filter _).length_le

lemma chainB_append (l1 : List Nat) : ∀ (tprev : Nat) (l2 : List Nat),
    chainB tprev (l1 ++ l2) = true → chainB tprev l1 = true := by
  induction l1 with
  | nil => intro tprev l2 _; rfl
  | cons t l ih =>
      intro tprev l2 h
      simp only [List.cons_append, chainB, Bool.and_eq_true] at h ⊢
      exact ⟨h.1, ih t l2 h.2⟩

lemma persistCount_single (j dl : Nat) :
    persistCount [Timer.mk j dl TAct.persist] = 1 := by
  simp [persistCount]

/-- Running a debounced chain of `documentChanged` events from a state whose
only pending timer is the persistence timer of the previous edit: every
event cancels and reschedules, no timer ever fires, and the run ends with a
single persistence timer due 5 units after the last edit. -/
lemma run_dc_tail (ts : List Nat) : ∀ (s : EState) (i tprev : Nat),
    s.pending = [Timer.mk i (tprev + 5) TAct.persist] →
    s.persistenceTimeout = some i →
    s.now ≤ tprev →
    chainB tprev ts = true →
    ∃ j, (run s (dcTrace ts)).pending = [Timer.mk j (ts.getLastD tprev + 5) TAct.persist] ∧
         (run s (dcTrace ts)).persistenceTimeout = some j ∧
         (run s (dcTrace ts)).now ≤ ts.getLastD tprev ∧
         (run s (dcTrace ts)).writeLog = s.writeLog ∧
         (run s (dcTrace ts)).doc = s.doc := by
  induction ts with
  | nil =>
      intro s i tprev hp hpt hnow _
      exact ⟨i, hp, hpt, hnow, rfl, rfl⟩
  | cons t l ih =>
      intro s i tprev hp hpt hnow hch
      simp only [chainB, Bool.and_eq_true, decide_eq_true_eq] at hch
      obtain ⟨⟨h1, h2⟩, h3⟩ := hch
      have hnt : s.now ≤ t := le_trans hnow h1
      have hmax : max s.now t = t := Nat.max_eq_right hnt
      have hcond : ∀ tm ∈ s.pending, max s.now t < tm.deadline := by
        intro tm htm
        rw [hp] at htm
        simp only [List.mem_singleton] at htm
        subst htm
        rw [hmax]
        exact h2
      have hadv : advanceTo s t = { s with now := t } := by
        rw [advanceTo_not_due s t hcond, hmax]
      have hdc : documentChangedOp { s with now := t } =
          { s with now := t, pending := [Timer.mk s.nextId (t + 5) TAct.persist],
                   nextId := s.nextId + 1, persistenceTimeout := some s.nextId } :=
        documentChangedOp_single _ i (tprev + 5) TAct.persist hp hpt
      have hrun : run s (dcTrace (t :: l)) =
          run { s with now := t, pending := [Timer.mk s.nextId (t + 5) TAct.persist],
                       nextId := s.nextId + 1, persistenceTimeout := some s.nextId }
              (dcTrace l) := by
        rw [show dcTrace (t :: l) = (t, Ev.docChanged) :: dcTrace l from rfl, run_cons]
        show run (opOf Ev.docChanged (advanceTo s t)) (dcTrace l) = _
        rw [hadv]
        show run (documentChangedOp { s with now := t }) (dcTrace l) = _
        rw [hdc]
      obtain ⟨j, g1, g2, g3, g4, g5⟩ := ih
        { s with now := t, pending := [Timer.mk s.nextId (t + 5) TAct.persist],
                 nextId := s.nextId + 1, persistenceTimeout := some s.nextId }
        s.nextId t rfl rfl (le_refl t) h3
      rw [List.getLastD_cons]
      rw [hrun]
      exact ⟨j, g1, g2, g3, g4, g5⟩

lemma step_init_dc (d : SpecVal) (e : Enc) (t0 : Nat) :
    step (initState d e) (t0, Ev.docChanged) = firstEditState d e t0 := by
  have hmax : max (0 : Nat) t0 = t0 := Nat.max_eq_right (Nat.zero_le t0)
  simp [step, opOf, advanceTo, initState, documentChangedOp, schedule, sortT,
        firstEditState, hmax]

/-- `run_dc_tail` started from a fresh session: the first edit schedules
the first persistence timer, the rest keep debouncing it. -/
lemma run_dc_head (d : SpecVal) (e : Enc) (t0 : Nat) (ts : List Nat)
    (hch : chainB t0 ts = true) :
    ∃ j, (run (initState d e) (dcTrace (t0 :: ts))).pending
            = [Timer.mk j (ts.getLastD t0 + 5) TAct.persist] ∧
         (run (initState d e) (dcTrace (t0 :: ts))).persistenceTimeout = some j ∧
         (run (initState d e) (dcTrace (t0 :: ts))).now ≤ ts.getLastD t0 ∧
         (run (initState d e) (dcTrace (t0 :: ts))).writeLog = [] ∧
         (run (initState d e) (dcTrace (t0 :: ts))).doc = d := by
  have hrun : run (initState d e) (dcTrace (t0 :: ts)) =
      run (firstEditState d e t0) (dcTrace ts) := by
    rw [show dcTrace (t0 :: ts) = (t0, Ev.docChanged) :: dcTrace ts from rfl, run_cons,
        step_init_dc]
  obtain ⟨j, g1, g2, g3, g4, g5⟩ := run_dc_tail ts
    (firstEditState d e t0) 1 t0 rfl rfl (le_refl t0) hch
  rw [hrun]
  exact ⟨j, g1, g2, g3, g4, g5⟩

lemma closeErrorToastOp_fields (s : EState) :
    (closeErrorToastOp s).generateError = s.generateError ∧
    (closeErrorToastOp s).showErrorToast = false ∧
    (closeErrorToastOp s).showSuccessToast = s.showSuccessToast ∧
    (closeErrorToastOp s).generating = s.generating ∧
    (closeErrorToastOp s).store = s.store ∧
    (closeErrorToastOp s).pending =
      (match s.toastTimeoutId with
       | none => s.pending
       | some i => s.pending.filter (fun tm => tm.id != i)) := by
  cases ht : s.toastTimeoutId <;> simp [closeErrorToastOp, clearT, ht]

/-- C1 counterexample: an edit at time 0 followed by a successful `save()`
at time 1 empties the recovery store, but the recovery persistence timer
(handle 1) is still pending, and its write still occurs at its deadline
(time 5) with no further edit; likewise a `close()` at time 1 leaves the
timer pending.  The recovery state is therefore not fully cleared. -/
theorem C1_save_close_counterexample :
    ((run (initState (SpecVal.structured 0) Enc.json)
        [(0, Ev.docChanged), (1, Ev.saveOk "json")]).persistenceTimeout = some 1) ∧
    ((run (initState (SpecVal.structured 0) Enc.json)
        [(0, Ev.docChanged), (1, Ev.saveOk "json")]).store = none) ∧
    ((advanceTo (run (initState (SpecVal.structured 0) Enc.json)
        [(0, Ev.docChanged), (1, Ev.saveOk "json")]) 6).store
      = some (SpecVal.structured 0)) ∧
    ((run (initState (SpecVal.structured 0) Enc.json)
        [(0, Ev.docChanged), (1, Ev.closeEditor)]).persistenceTimeout = some 1) := by
  decide

/-- C1 amended: after a successful `save()` and after every `close()` the
recovery store holds no snapshot, but a pending recovery persistence timer
is not cancelled (neither operation touches `persistenceTimeout` or the
timer queue), so a pending write from an earlier edit can still occur
afterward without a new edit. -/
theorem C1_amended_save_close_clear_store_only (s : EState) (fmt : String) :
    (saveOkOp s fmt).store = none ∧
    (closeOp s).store = none ∧
    (saveOkOp s fmt).pending = s.pending ∧
    (saveOkOp s fmt).persistenceTimeout = s.persistenceTimeout ∧
    (closeOp s).pending = s.pending ∧
    (closeOp s).persistenceTimeout = s.persistenceTimeout :=
  ⟨rfl, rfl, rfl, rfl, rfl, rfl⟩

/-- C3: when the generation transport rejects with message `m`, the state
after the rejection callback has `generating = false`, stores exactly `m`
as the error message, shows the error toast, schedules no timer, and the
error state survives any passage of time (no auto-dismiss ever fires for
it) absent an explicit dismissal. -/
theorem C3_generate_reject_error_persists (s : EState) (cfg : Nat) (m : String) :
    (generateFailOp s cfg m).generating = false ∧
    (generateFailOp s cfg m).generateError = some m ∧
    (generateFailOp s cfg m).showErrorToast = true ∧
    (generateFailOp s cfg m).pending = s.pending ∧
    (generateFailOp s cfg m).nextId = s.nextId ∧
    (∀ T, (advanceTo (generateFailOp s cfg m) T).showErrorToast = true ∧
          (advanceTo (generateFailOp s cfg m) T).generateError = some m) := by
  refine ⟨rfl, rfl, rfl, rfl, rfl, fun T => ⟨?_, ?_⟩⟩
  · rw [(advanceTo_frame (generateFailOp s cfg m) T).2.2.2.2.2.1]; rfl
  · rw [(advanceTo_frame (generateFailOp s cfg m) T).2.2.2.2.1]; rfl

/-- C4: when `save()`'s transport rejects inside `saveAndClose()`, the
`.then` callback is skipped, so `close()` never runs: no close event is
emitted and the recovery store and timers are untouched; `close()` runs
(emitting exactly one close event) only when `save()` succeeds. -/
theorem C4_saveAndClose_fail_no_close (s : EState) :
    (saveAndCloseFailOp s).closedEmits = s.closedEmits ∧
    (saveAndCloseFailOp s).store = s.store ∧
    (saveAndCloseFailOp s).pending = s.pending ∧
    (saveAndCloseFailOp s).persistenceTimeout = s.persistenceTimeout ∧
    (saveAndCloseOkOp s).closedEmits = s.closedEmits + 1 :=
  ⟨rfl, rfl, rfl, rfl, rfl⟩

/-- C6 counterexample: `save()` resets `generateError` to `null` at entry,
before the transport call, so a failed save does not leave the stored
error message unchanged: starting from a state whose stored message is
`"boom"`, a failed save ends with no stored message. -/
theorem C6_failed_save_resets_error_counterexample :
    (generateFailOp (initState (SpecVal.structured 0) Enc.json) 0 "boom").generateError
      = some "boom" ∧
    (saveFailOp (generateFailOp (initState (SpecVal.structured 0) Enc.json) 0 "boom")
      "json").generateError = none ∧
    (saveFailOp (generateFailOp (initState (SpecVal.structured 0) Enc.json) 0 "boom")
        "json").generateError
      ≠ (generateFailOp (initState (SpecVal.structured 0) Enc.json) 0 "boom").generateError := by
  refine ⟨rfl, rfl, ?_⟩
  decide

/-- C6 amended: a `save(format)` whose transport rejects leaves the toast
flags, the toast timer handle, the recovery store and all timers
unchanged, and the rejection propagates to the caller (the `.then`
callback does not run); however the stored error message is
unconditionally reset to `null` at entry of `save()`. -/
theorem C6_amended_failed_save_frame (s : EState) (fmt : String) :
    (saveFailOp s fmt).showSuccessToast = s.showSuccessToast ∧
    (saveFailOp s fmt).showErrorToast = s.showErrorToast ∧
    (saveFailOp s fmt).toastTimeoutId = s.toastTimeoutId ∧
    (saveFailOp s fmt).store = s.store ∧
    (saveFailOp s fmt).pending = s.pending ∧
    (saveFailOp s fmt).persistenceTimeout = s.persistenceTimeout ∧
    (saveFailOp s fmt).closedEmits = s.closedEmits ∧
    (saveFailOp s fmt).generateError = none :=
  ⟨rfl, rfl, rfl, rfl, rfl, rfl, rfl, rfl⟩

/-- C7: `generate(config)` always serializes a structured document as JSON
(for any state, hence any session encoding; an already-text document
passes through), and invokes the generation transport with the unmodified
config, that content, and the fixed filename `"camel-project.zip"` —
whether the call later resolves or rejects. -/
theorem C7_generate_transport_call (s : EState) (cfg : Nat) (m : String) :
    (generateOkOp s cfg).generateCalls
      = s.generateCalls ++ [(cfg, jserialize s.doc, "camel-project.zip")] ∧
    (generateFailOp s cfg m).generateCalls
      = s.generateCalls ++ [(cfg, jserialize s.doc, "camel-project.zip")] :=
  ⟨rfl, rfl⟩

/-- C8 counterexample: when the current document is already text,
`save("json")` passes the bare filename `"openapi-spec"` (the extension is
appended only inside the `typeof spec === "object"` branch), not
`"openapi-spec.json"`. -/
theorem C8_text_doc_filename_counterexample :
    (saveOkOp (initState (SpecVal.text "raw") Enc.json) "json").downloads
      = [("raw", "application/json", "openapi-spec")] ∧
    ("openapi-spec" : String) ≠ "openapi-spec.json" := by
  refine ⟨rfl, ?_⟩
  decide

/-- C8 amended: `save(format)` makes exactly one export-transport call;
for a structured document the filename is `"openapi-spec.json"` when the
format is `"json"` and `"openapi-spec.yaml"` otherwise, while for an
already-text document the filename is the bare `"openapi-spec"` with no
extension. -/
theorem C8_amended_export_filename (s : EState) (fmt : String) :
    (saveOkOp s fmt).downloads
      = s.downloads ++
        [(saveContent s.doc fmt, "application/json", saveFilename s.doc fmt)] ∧
    (∀ v, saveFilename (SpecVal.structured v) fmt
        = if fmt == "json" then "openapi-spec.json" else "openapi-spec.yaml") ∧
    (∀ str, saveFilename (SpecVal.text str) fmt = "openapi-spec") := by
  refine ⟨rfl, fun v => ?_, fun str => rfl⟩
  cases h : fmt == "json" <;> simp [saveFilename, h]

/-- C9 counterexample: when the current document is already text,
`saveExt()` sends no host message at all (the send sits inside the
`typeof spec === "object"` branch), contradicting "exactly one host
message for every current document value". -/
theorem C9_text_doc_no_message_counterexample :
    (saveExtOp (initState (SpecVal.text "raw") Enc.json)).hostMessages = [] := rfl

/-- C9 amended: `saveExt()` sends exactly one `"save-req"` host message
with the text serialized per the session encoding when the document is
structured, and no message when the document is already text; in either
case it makes no download-transport call and leaves the recovery
scheduler state (pending timers, persistence handle, store, write log)
unchanged. -/
theorem C9_amended_saveExt (s : EState) :
    (saveExtOp s).hostMessages
      = s.hostMessages ++
        (match s.doc with
         | SpecVal.structured v => [("save-req", encSerialize s.encoding v)]
         | SpecVal.text _ => []) ∧
    (saveExtOp s).downloads = s.downloads ∧
    (saveExtOp s).pending = s.pending ∧
    (saveExtOp s).persistenceTimeout = s.persistenceTimeout ∧
    (saveExtOp s).store = s.store ∧
    (saveExtOp s).writeLog = s.writeLog := by
  cases hd : s.doc <;> simp [saveExtOp, hd]

/-- C10: dismissing the error toast clears only the visible flag and
cancels the timer whose handle is stored (everything else, in particular
the stored generation error message, is unchanged, and stays unchanged
under any passage of time), while `save()`, `close()` and `generate()`
each reset the stored message. -/
theorem C10_dismiss_error_frame (s : EState) (f : String) (c : Nat) (m : String) :
    (closeErrorToastOp s).generateError = s.generateError ∧
    (closeErrorToastOp s).showErrorToast = false ∧
    (closeErrorToastOp s).showSuccessToast = s.showSuccessToast ∧
    (closeErrorToastOp s).generating = s.generating ∧
    (closeErrorToastOp s).store = s.store ∧
    (closeErrorToastOp s).pending =
      (match s.toastTimeoutId with
       | none => s.pending
       | some i => s.pending.filter (fun tm => tm.id != i)) ∧
    (∀ T, (advanceTo (closeErrorToastOp s) T).generateError = s.generateError) ∧
    (saveOkOp s f).generateError = none ∧
    (saveFailOp s f).generateError = none ∧
    (closeOp s).generateError = none ∧
    (generateOkOp s c).generateError = none ∧
    (generateFailOp s c m).generateError = some m := by
  obtain ⟨h1, h2, h3, h4, h5, h6⟩ := closeErrorToastOp_fields s
  refine ⟨h1, h2, h3, h4, h5, h6, fun T => ?_, rfl, rfl, rfl, rfl, rfl⟩
  rw [(advanceTo_frame (closeErrorToastOp s) T).2.2.2.2.1, h1]

/-- C2: for every debounced chain of `documentChanged` events (first at
`t0`, each subsequent one less than 5 units after its predecessor, so N ≥ 1
events in all), exactly one recovery persistence write occurs, 5 units
after the last event: advancing the clock to any `T` shows an empty write
log before that deadline and exactly the one write, stamped with the
deadline, from then on; moreover after every prefix of the event sequence
and any further passage of time, at most one persistence timer is
pending. -/
theorem C2_debounce_single_write (d : SpecVal) (e : Enc) (t0 : Nat) (ts : List Nat)
    (hch : chainB t0 ts = true) :
    (∀ T, (advanceTo (run (initState d e) (dcTrace (t0 :: ts))) T).writeLog
        = if ts.getLastD t0 + 5 ≤ T then [(ts.getLastD t0 + 5, d)] else []) ∧
    (∀ l1 l2, t0 :: ts = l1 ++ l2 → ∀ T,
        persistCount (advanceTo (run (initState d e) (dcTrace l1)) T).pending ≤ 1) := by
  obtain ⟨j, h1, h2, h3, h4, h5⟩ := run_dc_head d e t0 ts hch
  constructor
  · intro T
    by_cases hT : ts.getLastD t0 + 5 ≤ T
    · rw [if_pos hT]
      have hd : ts.getLastD t0 + 5
          ≤ max (run (initState d e) (dcTrace (t0 :: ts))).now T :=
        le_trans hT (Nat.le_max_right _ _)
      rw [advanceTo_single_persist _ T j (ts.getLastD t0 + 5) h1 hd]
      simp [h4, h5]
    · rw [if_neg hT]
      have hcond : ∀ tm ∈ (run (initState d e) (dcTrace (t0 :: ts))).pending,
          max (run (initState d e) (dcTrace (t0 :: ts))).now T < tm.deadline := by
        intro tm htm
        rw [h1] at htm
        simp only [List.mem_singleton] at htm
        subst htm
        show max (run (initState d e) (dcTrace (t0 :: ts))).now T < ts.getLastD t0 + 5
        exact Nat.max_lt.mpr ⟨by omega, by omega⟩
      rw [advanceTo_not_due _ T hcond]
      exact h4
  · intro l1 l2 heq T
    cases l1 with
    | nil =>
        refine le_trans (persistCount_advanceTo _ T) ?_
        rw [show run (initState d e) (dcTrace []) = initState d e from rfl]
        simp [persistCount, initState]
    | cons a l1' =>
        injection heq with hh ht
        subst hh
        have ht2 : ts = l1' ++ l2 := ht
        have hch' : chainB t0 l1' = true := chainB_append l1' t0 l2 (ht2 ▸ hch)
        obtain ⟨j', k1, _, _, _, _⟩ := run_dc_head d e t0 l1' hch'
        refine le_trans (persistCount_advanceTo _ T) ?_
        rw [k1, persistCount_single]

/-- Witness for C2: edits at times 0 and 2 (gap below the 5-unit window)
produce exactly one write, at time 7. -/
theorem C2_debounce_single_write_witness :
    chainB 0 [2] = true ∧
    (advanceTo (run (initState (SpecVal.structured 3) Enc.json)
        (dcTrace (0 :: [2]))) 7).writeLog = [(7, SpecVal.structured 3)] := by
  refine ⟨by decide, ?_⟩
  have h := (C2_debounce_single_write (SpecVal.structured 3) Enc.json 0 [2] (by decide)).1 7
  exact h

/-- C5 counterexample: a successful `generate` at time 0 shows the success
toast and schedules its auto-dismiss (handle 1, due at time 5); a failing
`generate` at time 2 — before that timer fires — sets the error toast but
cancels nothing: the success auto-dismiss timer is still pending,
contradicting "no pending toast timer".  When it later fires (advancing to
time 5 empties the queue) it only clears the already-false success flag:
the error toast and its message survive. -/
theorem C5_stale_timer_pending_counterexample :
    ((run (initState (SpecVal.structured 0) Enc.json)
        [(0, Ev.generateOk 0), (2, Ev.generateFail 0 "boom")]).pending
      = [Timer.mk 1 5 TAct.dismissSuccess]) ∧
    ((advanceTo (run (initState (SpecVal.structured 0) Enc.json)
        [(0, Ev.generateOk 0), (2, Ev.generateFail 0 "boom")]) 5).pending = []) ∧
    ((advanceTo (run (initState (SpecVal.structured 0) Enc.json)
        [(0, Ev.generateOk 0), (2, Ev.generateFail 0 "boom")]) 5).showErrorToast = true) := by
  decide

/-- C5 amended: setting the error toast while the success toast's
auto-dismiss is pending does not cancel that timer — it remains pending —
but its callback only clears the (already false) success flag, so the
system is in the error state with the failure message and stays there
under any passage of time absent an explicit dismissal. -/
theorem C5_amended_stale_success_timer (s : EState) (t1 t2 cfg cfg2 : Nat) (m : String)
    (h0 : s.now ≤ t1) (h12 : t1 ≤ t2) (h2 : t2 < t1 + 5) :
    Timer.mk s.nextId (t1 + 5) TAct.dismissSuccess ∈
      (step (step s (t1, Ev.generateOk cfg)) (t2, Ev.generateFail cfg2 m)).pending ∧
    (step (step s (t1, Ev.generateOk cfg)) (t2, Ev.generateFail cfg2 m)).showErrorToast
      = true ∧
    (step (step s (t1, Ev.generateOk cfg)) (t2, Ev.generateFail cfg2 m)).generateError
      = some m ∧
    (step (step s (t1, Ev.generateOk cfg)) (t2, Ev.generateFail cfg2 m)).showSuccessToast
      = false ∧
    ∀ T, (advanceTo (step (step s (t1, Ev.generateOk cfg))
            (t2, Ev.generateFail cfg2 m)) T).showErrorToast = true ∧
         (advanceTo (step (step s (t1, Ev.generateOk cfg))
            (t2, Ev.generateFail cfg2 m)) T).generateError = some m := by
  have hanow : (advanceTo s t1).now = t1 := by
    rw [(advanceTo_frame s t1).1]
    exact Nat.max_eq_right h0
  have hanid : (advanceTo s t1).nextId = s.nextId := (advanceTo_frame s t1).2.1
  have hs1p : (generateOkOp (advanceTo s t1) cfg).pending
      = (advanceTo s t1).pending
        ++ [Timer.mk (advanceTo s t1).nextId ((advanceTo s t1).now + 5)
              TAct.dismissSuccess] := rfl
  have hs1now : (generateOkOp (advanceTo s t1) cfg).now = (advanceTo s t1).now := rfl
  have hmem1 : Timer.mk s.nextId (t1 + 5) TAct.dismissSuccess
      ∈ (generateOkOp (advanceTo s t1) cfg).pending := by
    rw [hs1p, hanid, hanow]
    simp
  have hmax2 : max (generateOkOp (advanceTo s t1) cfg).now t2 = t2 := by
    rw [hs1now, hanow]
    exact Nat.max_eq_right h12
  have hpend2 : (advanceTo (generateOkOp (advanceTo s t1) cfg) t2).pending
      = (generateOkOp (advanceTo s t1) cfg).pending.filter
          (fun tm =>
            decide (max (generateOkOp (advanceTo s t1) cfg).now t2 < tm.deadline)) :=
    (advanceTo_frame _ _).2.2.1
  have hmem2 : Timer.mk s.nextId (t1 + 5) TAct.dismissSuccess
      ∈ (advanceTo (generateOkOp (advanceTo s t1) cfg) t2).pending := by
    rw [hpend2]
    refine List.mem_filter.mpr ⟨hmem1, ?_⟩
    simp [hmax2, h2]
  refine ⟨hmem2, rfl, rfl, rfl, fun T => ⟨?_, ?_⟩⟩
  · rw [(advanceTo_frame (step (step s (t1, Ev.generateOk cfg))
        (t2, Ev.generateFail cfg2 m)) T).2.2.2.2.2.1]
    rfl
  · rw [(advanceTo_frame (step (step s (t1, Ev.generateOk cfg))
        (t2, Ev.generateFail cfg2 m)) T).2.2.2.2.1]
    rfl

/-- Witness for the amended C5 at a fresh session, success at time 0,
failure at time 2. -/
theorem C5_amended_stale_success_timer_witness :
    (initState (SpecVal.structured 0) Enc.json).now ≤ 0 ∧ (0 : Nat) ≤ 2 ∧
    (2 : Nat) < 0 + 5 ∧
    Timer.mk 1 5 TAct.dismissSuccess ∈
      (step (step (initState (SpecVal.structured 0) Enc.json) (0, Ev.generateOk 0))
        (2, Ev.generateFail 0 "boom")).pending := by
  refine ⟨by decide, by decide, by decide, ?_⟩
  exact (C5_amended_stale_success_timer (initState (SpecVal.structured 0) Enc.json)
    0 2 0 0 "boom" (by decide) (by decide) (by decide)).1

end ApicuritoEditor
